import Mathlib

/-!
Shallow embedding of the CloudVoter voting engine (`backend/voter_engine.py`,
`backend/config.py`) and proofs about it.

Conventions used throughout:
* timestamps and durations are integer seconds (`Int`); `datetime.now()` is an
  explicit `now` parameter;
* Python `None`-able fields become `Option`; Python truthiness of an optional
  string is `strTruthy`;
* page text matching (`pattern in page_content.lower()`) is substring search
  over the lowered character list;
* the browser/page/context handles collapse to a single `browser_live` flag and
  asynchronous effects (locks, sleeps, task spawns) are made explicit in the
  step functions' results.
-/

namespace CloudVoter

/-! ### Configuration constants (`backend/config.py`) -/

/-- `RETRY_DELAY_TECHNICAL` (config.py line 108): minutes to wait after a
technical failure. -/
def RETRY_DELAY_TECHNICAL : Int := 5

/-- `RETRY_DELAY_COOLDOWN` (config.py line 109): minutes to wait after an
IP cooldown / hourly limit. -/
def RETRY_DELAY_COOLDOWN : Int := 31

/-- `FAILURE_PATTERNS` (config.py lines 68-77). -/
def FAILURE_PATTERNS : List String :=
  ["hourly voting limit",
   "hourly limit",
   "already voted",
   "cooldown",
   "try again later",
   "someone has already voted out of this ip",
   "please come back at your next voting time",
   "wait before voting again"]

/-- `GLOBAL_HOURLY_LIMIT_PATTERNS` (config.py lines 81-84): the only patterns
that may trigger a fleet-wide pause. -/
def GLOBAL_HOURLY_LIMIT_PATTERNS : List String :=
  ["hourly voting limit", "hourly limit"]

/-- `INSTANCE_COOLDOWN_PATTERNS` (config.py lines 88-93). -/
def INSTANCE_COOLDOWN_PATTERNS : List String :=
  ["please come back at your next voting time",
   "already voted",
   "wait before voting again",
   "someone has already voted out of this ip"]

/-! ### String helpers

Python's `pattern in page_content.lower()` is substring containment after
lowercasing, modelled on character lists. -/

/-- `listStartsWith pat s` is true when `pat` is an initial segment of `s`. -/
def listStartsWith : List Char → List Char → Bool
  | [], _ => true
  | _ :: _, [] => false
  | a :: as, b :: bs => a == b && listStartsWith as bs

/-- `containsSub pat s` is true when `pat` occurs as a contiguous substring
of `s` (Python's `pat in s`). -/
def containsSub (pat : List Char) : List Char → Bool
  | [] => listStartsWith pat []
  | c :: t => listStartsWith pat (c :: t) || containsSub pat t

/-- Characters of a page after Python's `str.lower()`. -/
def lowerContent (s : String) : List Char := s.data.map Char.toLower

/-- `matchesAny pats cl` models `any(p in content_lower for p in pats)`. -/
def matchesAny (pats : List String) (cl : List Char) : Bool :=
  pats.any (fun p => containsSub p.data cl)

/-- First pattern of `pats` contained in `cl`, modelling the
`for pattern in ...: if pattern in page_content.lower(): ...; break` loops. -/
def firstMatching (pats : List String) (cl : List Char) : Option String :=
  pats.find? (fun p => containsSub p.data cl)

/-- Python truthiness of an optional string (`if s:`): present and nonempty. -/
def strTruthy : Option String → Bool
  | none => false
  | some s => !(s == "")

/-! ### Worker state (`VoterInstance.__init__`, voter_engine.py lines 72-127) -/

/-- State of one `VoterInstance`.  Browser handles collapse to `browser_live`;
`pause_event_set` records whether `pause_event` (an `asyncio.Event`) is set. -/
structure Worker where
  instance_id : Nat
  proxy_ip : String
  session_id : Option String
  status : String
  is_paused : Bool
  pause_event_set : Bool
  waiting_for_login : Bool
  login_detected : Bool
  login_detected_time : Option Int
  login_detection_reason : Option String
  excluded_from_cycles : Bool
  consecutive_init_failures : Nat
  last_vote_time : Option Int
  last_successful_vote : Option Int
  last_attempted_vote : Option Int
  last_failure_reason : Option String
  last_failure_type : Option String
  vote_count : Nat
  failed_attempts : Nat
  browser_live : Bool
deriving Repr, DecidableEq

/-- `VoterInstance.__init__` (voter_engine.py lines 72-127): the field values a
freshly constructed instance carries (`pause_event.set()` is called, so the
gate starts open; no browser is open yet). -/
def initVoterInstance (ip : String) (id : Nat) : Worker :=
  { instance_id := id
    proxy_ip := ip
    session_id := none
    status := "Initializing"
    is_paused := false
    pause_event_set := true
    waiting_for_login := false
    login_detected := false
    login_detected_time := none
    login_detection_reason := none
    excluded_from_cycles := false
    consecutive_init_failures := 0
    last_vote_time := none
    last_successful_vote := none
    last_attempted_vote := none
    last_failure_reason := none
    last_failure_type := none
    vote_count := 0
    failed_attempts := 0
    browser_live := false }

/-! ### Time-to-next-vote (`VoterInstance.get_time_until_next_vote`,
voter_engine.py lines 129-244) -/

/-- The fields of `MultiInstanceVoter` that `get_time_until_next_vote` reads
through `self.voter_manager`. -/
structure MgrView where
  global_hourly_limit : Bool
  global_reactivation_time : Option Int
deriving Repr, DecidableEq

/-- The dictionary returned by `get_time_until_next_vote`.  `next_vote_time`
keeps the timestamp (the code serialises it with `isoformat`). -/
structure TimeInfo where
  seconds_remaining : Int
  next_vote_time : Option Int
  status : String
  retry_type : Option String
deriving Repr, DecidableEq

/-- `VoterInstance.get_time_until_next_vote` (voter_engine.py lines 129-244).
`mgr = none` models a worker with no `voter_manager`; an unparseable
`global_reactivation_time` (the `except` at line 175) and a `None` one both
appear as `none` and fall through to the normal calculation. -/
def get_time_until_next_vote (mgr : Option MgrView) (w : Worker) (now : Int) :
    TimeInfo :=
  let globalBranch : Option TimeInfo :=
    match mgr with
    | some m =>
      if m.global_hourly_limit then
        match m.global_reactivation_time with
        | some r =>
          let global_seconds := max 0 (r - now)
          match w.last_vote_time with
          | some lv =>
            let individual_next := lv + 31 * 60
            let individual_seconds := max 0 (individual_next - now)
            if individual_seconds > global_seconds then
              some { seconds_remaining := individual_seconds
                     next_vote_time := some individual_next
                     status := if individual_seconds > 0 then "cooldown" else "ready"
                     retry_type := some "individual_cooldown_during_global_limit" }
            else
              some { seconds_remaining := global_seconds
                     next_vote_time := some r
                     status := if global_seconds > 0 then "global_hourly_limit" else "ready"
                     retry_type := some "global_limit" }
          | none =>
            -- individual_seconds stays 0, and 0 > global_seconds is false
            some { seconds_remaining := global_seconds
                   next_vote_time := some r
                   status := if global_seconds > 0 then "global_hourly_limit" else "ready"
                   retry_type := some "global_limit" }
        | none => none
      else none
    | none => none
  match globalBranch with
  | some ti => ti
  | none =>
    match w.last_attempted_vote, strTruthy w.last_failure_type with
    | some t, true =>
      let retry_minutes :=
        if w.last_failure_type == some "technical" then RETRY_DELAY_TECHNICAL
        else RETRY_DELAY_COOLDOWN
      let retry_label :=
        if w.last_failure_type == some "technical" then "retry" else "cooldown"
      let next_retry := t + retry_minutes * 60
      let retry_seconds := max 0 (next_retry - now)
      match w.last_vote_time with
      | some lv =>
        let next_vote := lv + 31 * 60
        let vote_seconds := max 0 (next_vote - now)
        if retry_seconds > vote_seconds then
          { seconds_remaining := retry_seconds
            next_vote_time := some next_retry
            status := if retry_seconds > 0 then retry_label ++ "_retry" else "ready"
            retry_type := w.last_failure_type }
        else
          { seconds_remaining := vote_seconds
            next_vote_time := some next_vote
            status := if vote_seconds > 0 then "cooldown" else "ready"
            retry_type := none }
      | none =>
        { seconds_remaining := retry_seconds
          next_vote_time := some next_retry
          status := if retry_seconds > 0 then retry_label ++ "_retry" else "ready"
          retry_type := w.last_failure_type }
    | _, _ =>
      match w.last_vote_time with
      | some lv =>
        let next_vote := lv + 31 * 60
        let sr := max 0 (next_vote - now)
        { seconds_remaining := sr
          next_vote_time := some next_vote
          status := if sr > 0 then "cooldown" else "ready"
          retry_type := none }
      | none =>
        { seconds_remaining := 0, next_vote_time := none
          status := "ready", retry_type := none }

/-! ### Cooldown gate (`VoterInstance.check_last_vote_cooldown`,
voter_engine.py lines 616-640, and the gate in `initialize`, lines 349-359) -/

/-- Outcome of reading `session_info.json` in `check_last_vote_cooldown`:
the file may be absent, readable but without a (truthy) `last_vote_time`,
unreadable/unparseable (any exception, e.g. corrupt JSON or a bad timestamp),
or parsed to a last-vote timestamp. -/
inductive SessionInfoRead where
  | missing
  | noLastVote
  | badParse
  | parsed (lastVote : Int)
deriving Repr, DecidableEq

/-- `VoterInstance.check_last_vote_cooldown` (voter_engine.py lines 616-640).
Returns `(can_initialize, remaining_minutes)`.  The code computes
`time_since_vote = (now - last)/60` and blocks when it is `< 31`;
`remaining_minutes = int(31 - time_since_vote)` truncates the positive float,
which on integer seconds is `(31*60 - d) / 60`. -/
def check_last_vote_cooldown (r : SessionInfoRead) (now : Int) : Bool × Int :=
  match r with
  | .missing => (true, 0)
  | .noLastVote => (true, 0)
  | .badParse => (true, 0)
  | .parsed lv =>
    let d := now - lv
    if d < 31 * 60 then (false, (31 * 60 - d) / 60) else (true, 0)

/-- The cooldown gate at the top of `VoterInstance.initialize`
(voter_engine.py lines 354-359): initialization proceeds to session
establishment iff the check is skipped or `check_last_vote_cooldown`
allows it. -/
def initializeCooldownGate (skip_cooldown_check : Bool) (r : SessionInfoRead)
    (now : Int) : Bool :=
  skip_cooldown_check || (check_last_vote_cooldown r now).1

/-! ### Vote attempt verification (`VoterInstance.attempt_vote`,
voter_engine.py lines 854-1571) -/

/-- One record written to the outcome sink.  `kind` distinguishes
`vote_logger.log_vote_attempt` from `vote_logger.log_hourly_limit`. -/
structure SinkEntry where
  kind : String
  status : String
  failure_type : String
deriving Repr, DecidableEq

/-- Page observations consumed by the verification phase of `attempt_vote`
(results of the Playwright probes, which are external I/O):
`content = none` models `page.content()` timing out. -/
structure PageObs where
  buttonStillVisible : Bool
  retryClickFound : Bool
  retryFinalCount : Option Int
  buttonStillVisibleAfterRetry : Bool
  content : Option String
  extractedCooldownMsg : Option String
  loginButtonFound : Bool
  loginButtonText : String
  browserAge : Int
  errorMsgFound : Option String
deriving Repr, DecidableEq

/-- Result of the verification phase of `attempt_vote`: the updated worker,
the sink after any records, the boolean the function returns, whether a second
vote click was performed this cycle, and whether
`voter_manager.handle_hourly_limit` was scheduled. -/
structure AttemptResult where
  worker : Worker
  sink : List SinkEntry
  returned : Bool
  retriedClick : Bool
  triggeredGlobal : Bool
deriving Repr, DecidableEq

/-- The verified-success field updates (voter_engine.py lines 948-954 and the
identical retry-success block at lines 1050-1056). -/
def successUpdate (w : Worker) (now : Int) : Worker :=
  { w with last_vote_time := some now
           last_successful_vote := some now
           last_attempted_vote := some now
           last_failure_reason := none
           last_failure_type := none
           vote_count := w.vote_count + 1 }

/-- The generic-message fallbacks for the cooldown message
(voter_engine.py lines 1159-1169). -/
def cooldownFallbackMsg (cl : List Char) : String :=
  if containsSub "please come back at your next voting time".data cl then
    "Already voted - Please come back at next voting time"
  else if containsSub "hourly limit".data cl then "Hourly voting limit reached"
  else if containsSub "already voted".data cl then "Already voted"
  else if containsSub "cooldown".data cl then "In cooldown period"
  else "Cooldown/limit detected"

/-- The failure-pattern (cooldown) branch of `attempt_vote`
(voter_engine.py lines 1115-1247): records the attempt as `ip_cooldown`
(re-typed `proxy_ip_mismatch` when the first matching instance pattern is the
proxy-mismatch one), logs to both sinks, closes the browser, and schedules the
global handler only when a `GLOBAL_HOURLY_LIMIT_PATTERNS` entry matches. -/
def cooldownBranch (w : Worker) (sink : List SinkEntry) (obs : PageObs)
    (cl : List Char) (hasMgr : Bool) (now : Int) (retried : Bool) :
    AttemptResult :=
  let msg :=
    match obs.extractedCooldownMsg with
    | some m => if m == "" then cooldownFallbackMsg cl else m
    | none => cooldownFallbackMsg cl
  let w := { w with last_attempted_vote := some now
                    last_failure_reason := some msg
                    last_failure_type := some "ip_cooldown" }
  let is_global := matchesAny GLOBAL_HOURLY_LIMIT_PATTERNS cl
  let is_instance := matchesAny INSTANCE_COOLDOWN_PATTERNS cl
  let matched_instance :=
    if is_instance then firstMatching INSTANCE_COOLDOWN_PATTERNS cl else none
  let w :=
    if matched_instance == some "someone has already voted out of this ip" then
      { w with last_failure_type := some "proxy_ip_mismatch" }
    else w
  let sink := sink ++
    [{ kind := "vote_attempt", status := "failed", failure_type := "ip_cooldown" },
     { kind := "hourly_limit", status := ""
       failure_type := if is_global then "global_hourly_limit" else "instance_cooldown" }]
  { worker := { w with browser_live := false }
    sink := sink
    returned := false
    retriedClick := retried
    triggeredGlobal := is_global && hasMgr }

/-- The no-pattern branch of `attempt_vote` after a failed count check
(voter_engine.py lines 1248-1383): login-button exclusion (with the
just-reopened-browser false-positive guard), else a technical failure
record. -/
def noPatternBranch (w : Worker) (sink : List SinkEntry) (obs : PageObs)
    (buttonStillVisible : Bool) (now : Int) (retried : Bool) : AttemptResult :=
  if obs.loginButtonFound && !(obs.browserAge < 30 && w.vote_count > 0) then
    { worker :=
        { w with login_detected := true
                 login_detected_time := some now
                 login_detection_reason :=
                   some ("Found login button: " ++ obs.loginButtonText)
                 excluded_from_cycles := true
                 status := "🔒 Login Required - EXCLUDED"
                 is_paused := true
                 pause_event_set := false
                 browser_live := false }
      sink := sink ++
        [{ kind := "vote_attempt", status := "failed", failure_type := "login_required" }]
      returned := false
      retriedClick := retried
      triggeredGlobal := false }
  else
    let failure_reason :=
      if buttonStillVisible then
        match obs.errorMsgFound with
        | some m =>
          if m == "" then "Click failed - Button still visible (popup may have reappeared)"
          else "Click failed - " ++ m
        | none => "Click failed - Button still visible (popup may have reappeared)"
      else if strTruthy obs.errorMsgFound then
        match obs.errorMsgFound with
        | some m => m
        | none => "Vote not counted (unknown reason)"
      else "Vote not counted (unknown reason)"
    { worker :=
        { w with last_attempted_vote := some now
                 last_failure_reason := some failure_reason
                 last_failure_type := some "technical"
                 browser_live := false }
      sink := sink ++
        [{ kind := "vote_attempt", status := "failed", failure_type := "technical" }]
      returned := false
      retriedClick := retried
      triggeredGlobal := false }

/-- The investigation after `page.content()` (voter_engine.py lines 1097-1383):
a timed-out read closes the browser and fails; matched failure patterns go to
the cooldown branch; otherwise the login / technical classification runs. -/
def afterInvestigate (w : Worker) (sink : List SinkEntry) (obs : PageObs)
    (hasMgr : Bool) (now : Int) (buttonStillVisible : Bool) (retried : Bool) :
    AttemptResult :=
  match obs.content with
  | none =>
    { worker := { w with browser_live := false }, sink := sink
      returned := false, retriedClick := retried, triggeredGlobal := false }
  | some content =>
    let cl := lowerContent content
    if matchesAny FAILURE_PATTERNS cl then
      cooldownBranch w sink obs cl hasMgr now retried
    else
      noPatternBranch w sink obs buttonStillVisible now retried

/-- The verification phase of `VoterInstance.attempt_vote` after the vote
click loop (voter_engine.py lines 909-1529).  `clicked` and `clickAttempts`
are the outcomes of the first click loop (lines 886-907); both vote counts
present dispatches on the counter delta (lines 942-1383); a missing count on
either side uses the text-detection fallback (lines 1385-1527). -/
def attempt_vote_post_click (w : Worker) (sink : List SinkEntry)
    (clicked : Bool) (clickAttempts : Nat) (initialCount finalCount : Option Int)
    (obs : PageObs) (hasMgr : Bool) (now : Int) : AttemptResult :=
  if !clicked then
    -- lines 909-931: button never found, technical failure, browser kept open
    { worker :=
        { w with last_attempted_vote := some now
                 last_failure_reason := some "Could not find vote button"
                 last_failure_type := some "technical" }
      sink := sink ++
        [{ kind := "vote_attempt", status := "failed", failure_type := "technical" }]
      returned := false, retriedClick := false, triggeredGlobal := false }
  else
    match initialCount, finalCount with
    | some ic, some fc =>
      let count_increase := fc - ic
      if count_increase == 1 then
        -- lines 945-981: verified success; log, persist, close browser
        { worker := { successUpdate w now with browser_live := false }
          sink := sink ++
            [{ kind := "vote_attempt", status := "success", failure_type := "" }]
          returned := true, retriedClick := false, triggeredGlobal := false }
      else if count_increase > 1 then
        -- lines 983-986: suspicious increase; console warnings only
        { worker := w, sink := sink, returned := false
          retriedClick := false, triggeredGlobal := false }
      else
        -- lines 988-1383: count did not increase
        let doRetry := obs.buttonStillVisible && clickAttempts < 3
        if doRetry && obs.retryClickFound then
          match obs.retryFinalCount with
          | some rfc =>
            if rfc > ic then
              -- lines 1046-1079: success on retry
              { worker := { successUpdate w now with browser_live := false }
                sink := sink ++
                  [{ kind := "vote_attempt", status := "success", failure_type := "" }]
                returned := true, retriedClick := true, triggeredGlobal := false }
            else
              afterInvestigate w sink obs hasMgr now
                obs.buttonStillVisibleAfterRetry true
          | none =>
            afterInvestigate w sink obs hasMgr now obs.buttonStillVisible true
        else
          afterInvestigate w sink obs hasMgr now obs.buttonStillVisible false
    | _, _ =>
      -- lines 1385-1527: count verification unavailable, text fallback
      match obs.content with
      | none =>
        { worker := { w with browser_live := false }, sink := sink
          returned := false, retriedClick := false, triggeredGlobal := false }
      | some content =>
        let cl := lowerContent content
        if matchesAny ["thank you", "success", "counted"] cl then
          -- lines 1400-1425: unverified success; failure fields left alone
          { worker := { w with last_vote_time := some now
                               vote_count := w.vote_count + 1 }
            sink := sink ++
              [{ kind := "vote_attempt", status := "success", failure_type := "" }]
            returned := true, retriedClick := false, triggeredGlobal := false }
        else if matchesAny FAILURE_PATTERNS cl then
          -- lines 1427-1525: cooldown via fallback; no proxy-mismatch re-type
          let msg :=
            match obs.extractedCooldownMsg with
            | some m => if m == "" then "Cooldown/limit detected (fallback)" else m
            | none => "Cooldown/limit detected (fallback)"
          let is_global := matchesAny GLOBAL_HOURLY_LIMIT_PATTERNS cl
          { worker :=
              { w with last_attempted_vote := some now
                       last_failure_reason := some msg
                       last_failure_type := some "ip_cooldown"
                       browser_live := false }
            sink := sink ++
              [{ kind := "vote_attempt", status := "failed", failure_type := "ip_cooldown" }]
            returned := false, retriedClick := false
            triggeredGlobal := is_global && hasMgr }
        else
          -- line 1527: nothing recognised, nothing recorded
          { worker := w, sink := sink, returned := false
            retriedClick := false, triggeredGlobal := false }

/-- The `except` handler of `attempt_vote` (voter_engine.py lines 1531-1571):
any exception records a technical failure and closes the browser. -/
def attempt_vote_exception_handler (w : Worker) (sink : List SinkEntry)
    (message : String) (now : Int) : AttemptResult :=
  { worker :=
      { w with failed_attempts := w.failed_attempts + 1
               last_attempted_vote := some now
               last_failure_reason := some ("Exception: " ++ message)
               last_failure_type := some "technical"
               browser_live := false }
    sink := sink ++
      [{ kind := "vote_attempt", status := "failed", failure_type := "technical" }]
    returned := false, retriedClick := false, triggeredGlobal := false }

/-! ### Voting cycle steps (`VoterInstance.run_voting_cycle`,
voter_engine.py lines 1605-1871) -/

/-- Where one iteration of the voting cycle ends up, for the part of the loop
ahead of navigation. -/
inductive CycleAction where
  | excludedSleep
  | blockedOnPause
  | hardPaused
  | backoff (secs : Nat)
  | proceed
deriving Repr, DecidableEq

/-- Whether the worker's manager exists and has the global flag set
(`self.voter_manager and self.voter_manager.global_hourly_limit`). -/
def mgrGlobalActive : Option MgrView → Bool
  | some m => m.global_hourly_limit
  | none => false

/-- The self-unpause check at the top of the cycle loop
(voter_engine.py lines 1630-1642): a paused worker with zero remaining time,
not waiting for login and under no global limit, clears its own pause. -/
def selfUnpauseCheck (mgr : Option MgrView) (now : Int) (w : Worker) : Worker :=
  if w.is_paused then
    let ti := get_time_until_next_vote mgr w now
    if ti.seconds_remaining == 0 && !w.waiting_for_login && !mgrGlobalActive mgr then
      { w with is_paused := false
               pause_event_set := true
               status := "▶️ Resumed - Ready to Vote" }
    else w
  else w

/-- One iteration of `run_voting_cycle` from the loop top through the browser
(re-)initialization attempt (voter_engine.py lines 1610-1685): exclusion
check, self-unpause, the pause gate, and on a dead browser the initialization
attempt (whose success is the external `initResult`) with exponential backoff
and the 5-failure hard pause. -/
def cycleInitStep (w : Worker) (mgr : Option MgrView) (now : Int)
    (initResult : Bool) : Worker × CycleAction :=
  if w.excluded_from_cycles then
    ({ w with browser_live := false }, .excludedSleep)
  else
    let w := selfUnpauseCheck mgr now w
    if !w.pause_event_set then (w, .blockedOnPause)
    else if !w.browser_live then
      if !initResult then
        let failures := w.consecutive_init_failures + 1
        let backoffTime := min (30 * 2 ^ (failures - 1)) 300
        if failures ≥ 5 then
          ({ w with status := "⚠️ Init Failed - Paused"
                    is_paused := true
                    pause_event_set := false
                    consecutive_init_failures := 0 }, .hardPaused)
        else
          ({ w with consecutive_init_failures := failures }, .backoff backoffTime)
      else
        ({ w with consecutive_init_failures := 0
                  browser_live := true
                  status := "Ready" }, .proceed)
    else (w, .proceed)

/-- The wait chosen after a failed vote attempt (voter_engine.py
lines 1824-1839), in minutes. -/
def cycleFailureWaitMinutes (ft : Option String) : Int :=
  if ft == some "proxy_ip_mismatch" then RETRY_DELAY_TECHNICAL
  else if ft == some "ip_cooldown" then RETRY_DELAY_COOLDOWN
  else RETRY_DELAY_TECHNICAL

/-- The tail of one cycle iteration after `attempt_vote` returns
(voter_engine.py lines 1803-1841): the browser is closed either way and the
sleep is 31 minutes after success, else typed by `last_failure_type`.
Returns the updated worker and the wait in minutes. -/
def cycleAfterVote (w : Worker) (success : Bool) : Worker × Int :=
  if success then
    ({ w with status := "✅ Vote Successful", browser_live := false },
     RETRY_DELAY_COOLDOWN)
  else
    let wm := cycleFailureWaitMinutes w.last_failure_type
    let st :=
      if w.last_failure_type == some "proxy_ip_mismatch" then
        "🔄 Proxy IP mismatch (" ++ toString wm ++ " min)"
      else if w.last_failure_type == some "ip_cooldown" then
        "⏳ Cooldown (" ++ toString wm ++ " min)"
      else "🔄 Retry in " ++ toString wm ++ " min"
    ({ w with status := st, browser_live := false }, wm)

/-- The pre-vote limit analysis of `run_voting_cycle`
(voter_engine.py lines 1701-1774): `limitProbe` is the result of
`check_hourly_voting_limit()`; the global handler is scheduled only when the
page content matches a `GLOBAL_HOURLY_LIMIT_PATTERNS` entry and a manager
exists (lines 1731-1744). -/
def cyclePreVoteTriggersGlobal (limitProbe : Bool) (content : String)
    (hasMgr : Bool) : Bool :=
  limitProbe && matchesAny GLOBAL_HOURLY_LIMIT_PATTERNS (lowerContent content)
    && hasMgr

/-! ### Session persistence (`VoterInstance.save_session_data`,
voter_engine.py lines 1573-1603, and the saved artifact consumed by
`launch_instance_from_saved_session`) -/

/-- The `session_info.json` record written by `save_session_data`
(voter_engine.py lines 1584-1591). -/
structure SavedInfo where
  instance_id : Nat
  proxy_ip : Option String
  session_id : Option String
  last_vote_time : Option Int
  vote_count : Nat
  saved_at : Int
deriving Repr, DecidableEq

/-- `VoterInstance.save_session_data` (voter_engine.py lines 1573-1603):
the session-info artifact it persists for worker `w` at time `now`. -/
def save_session_data (w : Worker) (now : Int) : SavedInfo :=
  { instance_id := w.instance_id
    proxy_ip := some w.proxy_ip
    session_id := w.session_id
    last_vote_time := w.last_vote_time
    vote_count := w.vote_count
    saved_at := now }

/-- A saved session directory as read back by
`launch_instance_from_saved_session`: whether `storage_state.json` exists and
the optional `session_info.json` content. -/
structure SavedArtifact where
  storage_state_exists : Bool
  info : Option SavedInfo
deriving Repr, DecidableEq

/-! ### Fleet coordinator (`MultiInstanceVoter`, voter_engine.py
lines 2006-2460) -/

/-- The `MultiInstanceVoter` state the claims exercise.  `active_instances`
is the ip-keyed dict in insertion order; `launched` additionally keeps every
successfully launched worker object — in the program these objects survive
displacement from the dict because their `run_voting_cycle` tasks are never
cancelled, so `launched` is the set of live workers.
`hourly_limit_check_task` counts outstanding expiry-watcher tasks. -/
structure FleetState where
  active_instances : List (String × Worker)
  used_ips : List String
  launched : List Worker
  global_hourly_limit : Bool
  global_reactivation_time : Option Int
  hourly_limit_start_time : Option Int
  hourly_limit_check_task : Nat
deriving Repr, DecidableEq

/-- A fleet with nothing launched (`MultiInstanceVoter.__init__`,
voter_engine.py lines 2009-2062). -/
def emptyFleet : FleetState :=
  { active_instances := [], used_ips := [], launched := []
    global_hourly_limit := false, global_reactivation_time := none
    hourly_limit_start_time := none, hourly_limit_check_task := 0 }

/-- Python dict assignment `self.active_instances[ip] = instance`: replace the
binding in place if the key exists, else append. -/
def updateAssoc (l : List (String × Worker)) (k : String) (v : Worker) :
    List (String × Worker) :=
  match l with
  | [] => [(k, v)]
  | (k1, v1) :: t =>
    if k1 == k then (k, v) :: t else (k1, v1) :: updateAssoc t k v

/-- Python set insertion `self.used_ips.add(ip)`. -/
def addUsedIp (l : List String) (ip : String) : List String :=
  if l.contains ip then l else l ++ [ip]

/-- The identity-selection core of `MultiInstanceVoter.get_proxy_ip`
(voter_engine.py lines 2064-2146): `assigned` is the IP the upstream proxy
service reports (`none` for a network failure or an exhausted retry budget);
an assigned IP already in the non-empty exclusion set is rejected
(lines 2104-2107, note the Python truthiness `if excluded_ips and ...`). -/
def get_proxy_ip (excluded : List String) (assigned : Option String) :
    Option String :=
  match assigned with
  | none => none
  | some ip =>
    if !(ip == "") then
      if !excluded.isEmpty && excluded.contains ip then none else some ip
    else none

/-- `MultiInstanceVoter.launch_new_instance` (voter_engine.py
lines 2148-2202): a fresh identity is requested with
`active_instances.keys() | used_ips` excluded; on success the instance is
registered under its IP and its cycle task started (`loginReq` gives the
`check_login_required` probe, which parks the worker instead).  Returns the
new state and the function's boolean result. -/
def launch_new_instance (s : FleetState) (assigned : Option String)
    (freshSession : String) (initOk loginReq : Bool) : FleetState × Bool :=
  let excluded := s.active_instances.map Prod.fst ++ s.used_ips
  match get_proxy_ip excluded assigned with
  | none => (s, false)
  | some ip =>
    let next_instance_id := s.active_instances.length + 1
    if initOk then
      let w0 := { initVoterInstance ip next_instance_id with
                    session_id := some freshSession
                    status := "Ready"
                    browser_live := true }
      let w := if loginReq then
                 { w0 with status := "🔑 Waiting for Login", waiting_for_login := true }
               else w0
      ({ s with active_instances := updateAssoc s.active_instances ip w
                used_ips := addUsedIp s.used_ips ip
                launched := s.launched ++ [w] }, true)
    else (s, false)

/-- `MultiInstanceVoter.launch_instance_from_saved_session`
(voter_engine.py lines 2204-2300): requires `storage_state.json`; refuses a
duplicate `instance_id`; reuses the saved proxy IP and session id when both
are truthy — with no check against live workers' IPs — and only falls back to
`get_proxy_ip` (with exclusions) otherwise.  `navOk` and `loginReq` are the
post-registration navigation and login probes. -/
def launch_instance_from_saved_session (s : FleetState) (instance_id : Nat)
    (art : SavedArtifact) (freshIp : Option String) (freshSession : String)
    (initOk navOk loginReq : Bool) : FleetState × Option Worker :=
  if !art.storage_state_exists then (s, none)
  else if s.active_instances.any (fun q => q.2.instance_id == instance_id) then
    (s, none)
  else
    let saved_proxy_ip := art.info.bind (fun i => i.proxy_ip)
    let saved_session_id := art.info.bind (fun i => i.session_id)
    let selection : Option (String × Option String) :=
      if strTruthy saved_proxy_ip && strTruthy saved_session_id then
        match saved_proxy_ip with
        | some ip => some (ip, saved_session_id)
        | none => none
      else
        let excluded := s.active_instances.map Prod.fst ++ s.used_ips
        match get_proxy_ip excluded freshIp with
        | some ip => some (ip, some freshSession)
        | none => none
    match selection with
    | none => (s, none)
    | some (ip, sid) =>
      if initOk then
        let w0 := { initVoterInstance ip instance_id with
                      session_id := sid
                      status := "Ready"
                      browser_live := true }
        let w := if navOk then
                   if loginReq then
                     { w0 with status := "🔑 Waiting for Login"
                               waiting_for_login := true }
                   else w0
                 else { w0 with status := "⚠️ Navigation Failed" }
        ({ s with active_instances := updateAssoc s.active_instances ip w
                  used_ips := addUsedIp s.used_ips ip
                  launched := s.launched ++ [w] }, some w)
      else (s, none)

/-- Truncation of `now + 1 hour` to the top of the hour
(`(datetime.now() + timedelta(hours=1)).replace(minute=0, second=0,
microsecond=0)`, voter_engine.py line 2315), on epoch seconds. -/
def nextHourTop (now : Int) : Int := 3600 * ((now + 3600) / 3600)

/-- `MultiInstanceVoter.handle_hourly_limit` (voter_engine.py
lines 2302-2339): an early no-op when the global limit is already active;
otherwise it sets the flag and deadline, pauses every unpaused registered
instance, and spawns the expiry watcher only if none is outstanding. -/
def handle_hourly_limit (s : FleetState) (now : Int) : FleetState :=
  if s.global_hourly_limit then s
  else
    { s with
        global_hourly_limit := true
        hourly_limit_start_time := some now
        global_reactivation_time := some (nextHourTop now)
        active_instances := s.active_instances.map (fun q =>
          (q.1,
           if !q.2.is_paused then
             { q.2 with is_paused := true
                        pause_event_set := false
                        status := "⏸️ Paused - Hourly Limit" }
           else q.2))
        hourly_limit_check_task :=
          if s.hourly_limit_check_task == 0 then s.hourly_limit_check_task + 1
          else s.hourly_limit_check_task }

/-- One poll of `MultiInstanceVoter._check_hourly_limit_expiry`
(voter_engine.py lines 2341-2385): while the flag holds and the deadline has
passed, it clears the three throttle fields, breaks, and nulls the task
handle; if the flag is already down, the loop exits and only the task handle
is nulled; otherwise nothing changes.  Workers are never touched. -/
def check_hourly_limit_expiry_step (s : FleetState) (now : Int) : FleetState :=
  if s.global_hourly_limit then
    match s.global_reactivation_time with
    | some r =>
      if now ≥ r then
        { s with global_hourly_limit := false
                 global_reactivation_time := none
                 hourly_limit_start_time := none
                 hourly_limit_check_task := 0 }
      else s
    | none => s
  else { s with hourly_limit_check_task := 0 }

/-! ### Auto-unpause monitor (`MultiInstanceVoter._auto_unpause_monitoring_loop`,
voter_engine.py lines 2387-2438) -/

/-- Eligibility for auto-unpause on one tick (voter_engine.py
lines 2397-2410): not excluded, paused, not waiting for login, zero remaining
time, and no active global limit. -/
def eligibleUnpause (g : Bool) (r : Option Int) (now : Int) (w : Worker) : Bool :=
  !w.excluded_from_cycles &&
    (w.is_paused && !w.waiting_for_login &&
      ((get_time_until_next_vote (some { global_hourly_limit := g
                                         global_reactivation_time := r }) w now
         ).seconds_remaining == 0 && !g))

/-- The release applied to the single chosen worker (voter_engine.py
lines 2417-2419). -/
def releaseWorker (w : Worker) : Worker :=
  { w with is_paused := false
           pause_event_set := true
           status := "▶️ Resumed - Ready to Vote" }

/-- Release the first entry satisfying `p`, leaving everything else alone:
the loop collects `instances_to_unpause` and updates only its head
(voter_engine.py lines 2412-2419). -/
def unpauseFirst (p : Worker → Bool) : List (String × Worker) →
    List (String × Worker)
  | [] => []
  | (ip, w) :: t =>
    if p w then (ip, releaseWorker w) :: t else (ip, w) :: unpauseFirst p t

/-- One 30-second tick of the auto-unpause monitoring loop
(voter_engine.py lines 2392-2425). -/
def auto_unpause_tick (s : FleetState) (now : Int) : FleetState :=
  { s with active_instances :=
      unpauseFirst (eligibleUnpause s.global_hourly_limit s.global_reactivation_time now) s.active_instances }

/-! ### Claim C1 -/

/-- A worker whose last attempt failed with the proxy-mismatch failure type
(the state `attempt_vote` would leave behind at line 1195), queried at the
attempt time, with no prior success and no global throttle. -/
def mismatchWorker : Worker :=
  { initVoterInstance "198.51.100.7" 3 with
      last_attempted_vote := some 0
      last_failure_type := some "proxy_ip_mismatch"
      last_failure_reason := some "someone has already voted out of this ip" }

/-- C1: `get_time_until_next_vote` does NOT give the `proxy_ip_mismatch`
failure type a 5-minute window: only `technical` gets 5 minutes and every
other type falls into the 31-minute branch, so the function reports 1860
seconds (31 min) for a proxy-mismatch failure — while `run_voting_cycle`
(lines 1824-1829) waits `RETRY_DELAY_TECHNICAL = 5` minutes for the very same
state, the behaviour the claim (and the code's own log message at line 1197,
"Will retry in 5 minutes") describes. -/
theorem c1_mismatch_gets_cooldown_window_not_technical :
    (get_time_until_next_vote
        (some { global_hourly_limit := false, global_reactivation_time := none })
        mismatchWorker 0).seconds_remaining = 1860 ∧
    (get_time_until_next_vote
        (some { global_hourly_limit := false, global_reactivation_time := none })
        mismatchWorker 0).retry_type = some "proxy_ip_mismatch" ∧
    cycleFailureWaitMinutes (some "proxy_ip_mismatch") = RETRY_DELAY_TECHNICAL ∧
    RETRY_DELAY_TECHNICAL * 60 = 300 := by
  decide

/-! ### Claim C2 -/

/-- A worker that has one verified vote at time 1000 (the state
`save_session_data` is called from after a success). -/
def persistedWorker : Worker :=
  successUpdate
    { initVoterInstance "203.0.113.5" 7 with session_id := some "abcdefghij" }
    1000

/-- The worker restored from `persistedWorker`'s saved artifact. -/
def restoredFromPersisted : Option Worker :=
  (launch_instance_from_saved_session emptyFleet 7
      { storage_state_exists := true, info := some (save_session_data persistedWorker 1000) }
      none "zzzzzzzzzz" true true false).2

/-- C2 counterexample: the persisting worker has `vote_count = 1` and
`last_vote_time = 1000`, but the worker restored from the very artifact it
saved comes back with `vote_count = 0` and `last_vote_time = None` —
`launch_instance_from_saved_session` reads only `proxy_ip` and `session_id`
from the artifact and never copies the counters into the new instance. -/
theorem c2_restore_drops_counters :
    persistedWorker.vote_count = 1 ∧
    persistedWorker.last_vote_time = some 1000 ∧
    restoredFromPersisted.map (fun w => w.vote_count) = some 0 ∧
    restoredFromPersisted.map (fun w => w.last_vote_time) = some none := by
  decide

/-- C2 (amended): restoring from a persisted artifact reproduces the saved
proxy IP and session id, and the artifact itself faithfully records
`vote_count` and `last_vote_time`; but the restored worker always restarts
with `vote_count = 0` and `last_vote_time = None`, whatever was persisted. -/
theorem c2_persist_restore_amended (w : Worker) (s : FleetState) (now : Int)
    (freshIp : Option String) (fs : String) (navOk loginReq : Bool)
    (hip : (w.proxy_ip == "") = false)
    (hsid : strTruthy w.session_id = true)
    (hid : s.active_instances.any (fun q => q.2.instance_id == w.instance_id) = false) :
    ∃ rw,
      (launch_instance_from_saved_session s w.instance_id
          { storage_state_exists := true, info := some (save_session_data w now) }
          freshIp fs true navOk loginReq).2 = some rw ∧
      rw.proxy_ip = w.proxy_ip ∧
      rw.session_id = w.session_id ∧
      rw.vote_count = 0 ∧
      rw.last_vote_time = none ∧
      (save_session_data w now).vote_count = w.vote_count ∧
      (save_session_data w now).last_vote_time = w.last_vote_time := by
  obtain ⟨sid, hsideq, hsidne⟩ :
      ∃ sid, w.session_id = some sid ∧ (sid == "") = false := by
    cases hw : w.session_id with
    | none => rw [hw] at hsid; simp [strTruthy] at hsid
    | some t =>
      refine ⟨t, rfl, ?_⟩
      rw [hw] at hsid
      simpa [strTruthy] using hsid
  simp only [launch_instance_from_saved_session, save_session_data,
    Bool.not_true, Bool.false_eq_true, if_false, hid, hsideq]
  simp only [strTruthy, Option.bind, hip, hsidne, Bool.not_false, Bool.and_self,
    if_true]
  cases navOk <;> cases loginReq <;> refine ⟨_, rfl, ?_⟩ <;>
    simp [initVoterInstance, hsideq]

/-- C2 witness: the amended statement holds at the concrete persisted
worker. -/
theorem c2_persist_restore_amended_witness :
    ∃ rw,
      (launch_instance_from_saved_session emptyFleet persistedWorker.instance_id
          { storage_state_exists := true
            info := some (save_session_data persistedWorker 1000) }
          none "zzzzzzzzzz" true true false).2 = some rw ∧
      rw.proxy_ip = persistedWorker.proxy_ip ∧
      rw.session_id = persistedWorker.session_id ∧
      rw.vote_count = 0 ∧
      rw.last_vote_time = none ∧
      (save_session_data persistedWorker 1000).vote_count = persistedWorker.vote_count ∧
      (save_session_data persistedWorker 1000).last_vote_time = persistedWorker.last_vote_time :=
  c2_persist_restore_amended persistedWorker emptyFleet 1000 none "zzzzzzzzzz"
    true false (by decide) (by decide) (by decide)

/-! ### Claim C4 -/

/-- C4: `handle_hourly_limit` is idempotent — invoked while the global limit
is already active it changes nothing (flag, deadline, workers and watcher
bookkeeping all unchanged), and it never pushes the number of outstanding
expiry watchers above one. -/
theorem c4_handle_hourly_limit_idempotent (s : FleetState) (now : Int) :
    (s.global_hourly_limit = true → handle_hourly_limit s now = s) ∧
    (s.hourly_limit_check_task ≤ 1 →
      (handle_hourly_limit s now).hourly_limit_check_task ≤ 1) := by
  constructor
  · intro h
    unfold handle_hourly_limit
    simp [h]
  · intro h
    unfold handle_hourly_limit
    by_cases hg : s.global_hourly_limit
    · simpa [hg] using h
    · simp only [hg, Bool.false_eq_true, if_false]
      show (if s.hourly_limit_check_task == 0 then s.hourly_limit_check_task + 1
            else s.hourly_limit_check_task) ≤ 1
      split <;> simp_all

/-- A fleet with an active global throttle and one outstanding watcher. -/
def throttledFleet : FleetState :=
  { emptyFleet with
      active_instances := [("10.0.0.1",
        { initVoterInstance "10.0.0.1" 1 with
            is_paused := true, pause_event_set := false
            status := "⏸️ Paused - Hourly Limit" })]
      global_hourly_limit := true
      global_reactivation_time := some 3600
      hourly_limit_start_time := some 100
      hourly_limit_check_task := 1 }

/-- C4 witness: triggering the handler on the already-throttled fleet is a
no-op and keeps a single watcher outstanding. -/
theorem c4_handle_hourly_limit_idempotent_witness :
    handle_hourly_limit throttledFleet 200 = throttledFleet ∧
    (handle_hourly_limit throttledFleet 200).hourly_limit_check_task ≤ 1 :=
  ⟨(c4_handle_hourly_limit_idempotent throttledFleet 200).1 rfl,
   (c4_handle_hourly_limit_idempotent throttledFleet 200).2 (by decide)⟩

/-! ### Claim C9 -/

/-- C9: a poll of the expiry watcher never touches any worker — the
registered instances (with their pause flags, gates and statuses) and the
launched list are returned exactly as they were — and once the deadline has
passed it clears exactly the fleet-wide throttle state
(`global_hourly_limit`, `global_reactivation_time`,
`hourly_limit_start_time`, plus its own task handle). -/
theorem c9_expiry_watcher_clears_flags_only (s : FleetState) (now : Int) :
    (check_hourly_limit_expiry_step s now).active_instances = s.active_instances ∧
    (check_hourly_limit_expiry_step s now).launched = s.launched ∧
    (∀ r, s.global_hourly_limit = true → s.global_reactivation_time = some r →
      r ≤ now →
      check_hourly_limit_expiry_step s now =
        { s with global_hourly_limit := false
                 global_reactivation_time := none
                 hourly_limit_start_time := none
                 hourly_limit_check_task := 0 }) := by
  refine ⟨?_, ?_, ?_⟩
  · unfold check_hourly_limit_expiry_step
    by_cases hg : s.global_hourly_limit
    · simp only [hg, if_true]
      cases hr : s.global_reactivation_time with
      | none => rfl
      | some r => by_cases hn : now ≥ r <;> simp [hn]
    · simp [hg]
  · unfold check_hourly_limit_expiry_step
    by_cases hg : s.global_hourly_limit
    · simp only [hg, if_true]
      cases hr : s.global_reactivation_time with
      | none => rfl
      | some r => by_cases hn : now ≥ r <;> simp [hn]
    · simp [hg]
  · intro r hg hr hle
    unfold check_hourly_limit_expiry_step
    simp [hg, hr, show now ≥ r from hle]

/-- C9 witness: on the concrete throttled fleet at its deadline, the watcher
clears the throttle state and the paused worker is untouched. -/
theorem c9_expiry_watcher_clears_flags_only_witness :
    (check_hourly_limit_expiry_step throttledFleet 3600).active_instances =
      throttledFleet.active_instances ∧
    check_hourly_limit_expiry_step throttledFleet 3600 =
      { throttledFleet with
          global_hourly_limit := false
          global_reactivation_time := none
          hourly_limit_start_time := none
          hourly_limit_check_task := 0 } :=
  ⟨(c9_expiry_watcher_clears_flags_only throttledFleet 3600).1,
   (c9_expiry_watcher_clears_flags_only throttledFleet 3600).2.2 3600 rfl rfl
     (by decide)⟩

/-! ### Claim C8 -/

/-- Page observations for a cycle where nothing further is probed
(all probes empty/negative). -/
def emptyObs : PageObs :=
  { buttonStillVisible := false, retryClickFound := false
    retryFinalCount := none, buttonStillVisibleAfterRetry := false
    content := none, extractedCooldownMsg := none
    loginButtonFound := false, loginButtonText := "", browserAge := 0
    errorMsgFound := none }

/-- C8 counterexample: a counter jump of +2 (10 → 12) is not counted as a
success and triggers no retry, but contrary to the claim the failure is NOT
recorded — the worker comes back bit-for-bit unchanged (no
`last_attempted_vote`, no failure fields) and nothing is written to the
sink. -/
theorem c8_suspicious_records_nothing :
    attempt_vote_post_click (initVoterInstance "198.51.100.20" 4) [] true 1
        (some 10) (some 12) emptyObs true 0 =
      { worker := initVoterInstance "198.51.100.20" 4, sink := []
        returned := false, retriedClick := false, triggeredGlobal := false } ∧
    (initVoterInstance "198.51.100.20" 4).last_attempted_vote = none ∧
    (initVoterInstance "198.51.100.20" 4).last_failure_type = none := by
  decide

/-- C8 (amended): a counter increase strictly greater than 1 is classified
as suspicious and not counted as a success, no further click retry occurs and
no global handler fires; but nothing is recorded — the worker state and the
sink are returned unchanged (only console warnings are emitted) — and the
browser is then reclaimed by the cycle loop, which sleeps according to
whatever `last_failure_type` was already stored. -/
theorem c8_suspicious_amended (w : Worker) (sink : List SinkEntry) (ca : Nat)
    (obs : PageObs) (hasMgr : Bool) (now : Int) (ic fc : Int)
    (h : fc - ic > 1) :
    attempt_vote_post_click w sink true ca (some ic) (some fc) obs hasMgr now =
      { worker := w, sink := sink, returned := false
        retriedClick := false, triggeredGlobal := false } ∧
    (cycleAfterVote w false).1.browser_live = false ∧
    (cycleAfterVote w false).2 = cycleFailureWaitMinutes w.last_failure_type := by
  refine ⟨?_, ?_, ?_⟩
  · unfold attempt_vote_post_click
    have h1 : (fc - ic == 1) = false := by
      simp only [beq_eq_false_iff_ne, ne_eq]
      omega
    simp [h1, h]
  · unfold cycleAfterVote
    simp
  · unfold cycleAfterVote
    simp

/-- C8 witness: the amended statement at the concrete +2 jump. -/
theorem c8_suspicious_amended_witness :
    attempt_vote_post_click (initVoterInstance "198.51.100.21" 5) [] true 1
        (some 10) (some 12) emptyObs true 0 =
      { worker := initVoterInstance "198.51.100.21" 5, sink := []
        returned := false, retriedClick := false, triggeredGlobal := false } ∧
    (cycleAfterVote (initVoterInstance "198.51.100.21" 5) false).1.browser_live = false ∧
    (cycleAfterVote (initVoterInstance "198.51.100.21" 5) false).2 =
      cycleFailureWaitMinutes (initVoterInstance "198.51.100.21" 5).last_failure_type :=
  c8_suspicious_amended (initVoterInstance "198.51.100.21" 5) [] 1 emptyObs
    true 0 10 12 (by decide)

/-! ### Claim C10 -/

/-- C10: the cooldown gate fails open — a missing `session_info.json`, a
record without `last_vote_time`, or any read/parse exception all yield
`(True, 0)` and let `initialize` proceed; only a successfully parsed record
whose last vote is under 31 minutes old blocks initialization. -/
theorem c10_cooldown_gate_fails_open : ∀ (now lv : Int),
    check_last_vote_cooldown .missing now = (true, 0) ∧
    check_last_vote_cooldown .noLastVote now = (true, 0) ∧
    check_last_vote_cooldown .badParse now = (true, 0) ∧
    initializeCooldownGate false .missing now = true ∧
    initializeCooldownGate false .noLastVote now = true ∧
    initializeCooldownGate false .badParse now = true ∧
    (initializeCooldownGate false (.parsed lv) now = false ↔ now - lv < 31 * 60) := by
  intro now lv
  refine ⟨rfl, rfl, rfl, rfl, rfl, rfl, ?_⟩
  show ((false || (check_last_vote_cooldown (.parsed lv) now).1) = false ↔ _)
  simp only [Bool.false_or, check_last_vote_cooldown]
  by_cases hlt : now - lv < 31 * 60
  · rw [if_pos hlt]
    simpa using hlt
  · rw [if_neg hlt]
    simpa using hlt

/-! ### Claim C6 -/

/-- The cooldown branch schedules the global handler only when a global
pattern matched. -/
theorem cooldownBranch_trigger (w : Worker) (sink : List SinkEntry)
    (obs : PageObs) (cl : List Char) (hasMgr : Bool) (now : Int) (retried : Bool)
    (h : (cooldownBranch w sink obs cl hasMgr now retried).triggeredGlobal = true) :
    matchesAny GLOBAL_HOURLY_LIMIT_PATTERNS cl = true := by
  simp [cooldownBranch] at h
  exact h.1

/-- The no-pattern branch never schedules the global handler. -/
theorem noPatternBranch_trigger (w : Worker) (sink : List SinkEntry)
    (obs : PageObs) (bsv : Bool) (now : Int) (retried : Bool) :
    (noPatternBranch w sink obs bsv now retried).triggeredGlobal = false := by
  unfold noPatternBranch
  split <;> rfl

/-- The post-count investigation schedules the global handler only when the
page content matched a global pattern. -/
theorem afterInvestigate_trigger (w : Worker) (sink : List SinkEntry)
    (obs : PageObs) (hasMgr : Bool) (now : Int) (bsv retried : Bool)
    (h : (afterInvestigate w sink obs hasMgr now bsv retried).triggeredGlobal = true) :
    ∃ c, obs.content = some c ∧
      matchesAny GLOBAL_HOURLY_LIMIT_PATTERNS (lowerContent c) = true := by
  unfold afterInvestigate at h
  cases hc : obs.content with
  | none => rw [hc] at h; simp at h
  | some content =>
    rw [hc] at h
    simp only at h
    by_cases hf : matchesAny FAILURE_PATTERNS (lowerContent content) = true
    · rw [if_pos hf] at h
      exact ⟨content, rfl, cooldownBranch_trigger _ _ _ _ _ _ _ h⟩
    · rw [if_neg ?hneg] at h
      case hneg => simpa using hf
      rw [noPatternBranch_trigger] at h
      exact absurd h (by simp)

/-- C6: `handle_hourly_limit` is scheduled from a worker's cycle only when the
page text matches an entry of `GLOBAL_HOURLY_LIMIT_PATTERNS` — for every input
to the vote-attempt verification phase and to the pre-vote limit analysis, a
scheduled fleet-wide pause implies the lowered page content contains a global
pattern; unmatched or instance-scope banners never escalate. -/
theorem c6_global_trigger_only_on_global_patterns (w : Worker)
    (sink : List SinkEntry) (clicked : Bool) (ca : Nat) (ic fc : Option Int)
    (obs : PageObs) (hasMgr : Bool) (now : Int) (probe : Bool)
    (content : String) :
    ((attempt_vote_post_click w sink clicked ca ic fc obs hasMgr now).triggeredGlobal = true →
      ∃ c, obs.content = some c ∧
        matchesAny GLOBAL_HOURLY_LIMIT_PATTERNS (lowerContent c) = true) ∧
    (cyclePreVoteTriggersGlobal probe content hasMgr = true →
      matchesAny GLOBAL_HOURLY_LIMIT_PATTERNS (lowerContent content) = true) := by
  constructor
  · intro h
    unfold attempt_vote_post_click at h
    simp only [] at h
    repeat' split at h
    all_goals first
      | exact afterInvestigate_trigger _ _ _ _ _ _ _ h
      | (simp at h; exact ⟨_, by assumption, h.1⟩)
      | simp at h
  · intro h
    unfold cyclePreVoteTriggersGlobal at h
    simp only [Bool.and_eq_true] at h
    exact h.1.2

/-- Page observations for a banner that matches a global pattern. -/
def globalBannerObs : PageObs :=
  { emptyObs with content := some "You have reached the hourly voting limit" }

/-- C6 witness: a page matching the global pattern does schedule the handler,
and the theorem's implications hold at that input. -/
theorem c6_global_trigger_only_on_global_patterns_witness :
    (∃ c, globalBannerObs.content = some c ∧
      matchesAny GLOBAL_HOURLY_LIMIT_PATTERNS (lowerContent c) = true) ∧
    matchesAny GLOBAL_HOURLY_LIMIT_PATTERNS
      (lowerContent "You have reached the hourly voting limit") = true :=
  ⟨(c6_global_trigger_only_on_global_patterns (initVoterInstance "10.0.0.9" 9)
      [] true 1 (some 5) (some 5) globalBannerObs true 0 true
      "You have reached the hourly voting limit").1 (by decide),
   (c6_global_trigger_only_on_global_patterns (initVoterInstance "10.0.0.9" 9)
      [] true 1 (some 5) (some 5) globalBannerObs true 0 true
      "You have reached the hourly voting limit").2 (by decide)⟩

/-! ### Claim C7 -/

/-- C7 (amended): failed session establishment increments the failure counter
and the k-th consecutive failure with k < 5 sleeps
`min(30 * 2^(k-1), 300)` seconds; the 5th consecutive failure instead
hard-pauses the worker (pause set, gate cleared, counter reset to 0) without
sleeping; and a successful establishment resets the counter to 0. -/
theorem c7_init_failure_escalation (w : Worker) (mgr : Option MgrView)
    (now : Int)
    (hexc : w.excluded_from_cycles = false)
    (hp : w.is_paused = false)
    (hg : w.pause_event_set = true)
    (hb : w.browser_live = false) :
    (w.consecutive_init_failures + 1 < 5 →
      cycleInitStep w mgr now false =
        ({ w with consecutive_init_failures := w.consecutive_init_failures + 1 },
         .backoff (min (30 * 2 ^ w.consecutive_init_failures) 300))) ∧
    (5 ≤ w.consecutive_init_failures + 1 →
      cycleInitStep w mgr now false =
        ({ w with status := "⚠️ Init Failed - Paused", is_paused := true
                  pause_event_set := false, consecutive_init_failures := 0 },
         .hardPaused)) ∧
    (cycleInitStep w mgr now true).1.consecutive_init_failures = 0 := by
  have hsup : selfUnpauseCheck mgr now w = w := by
    unfold selfUnpauseCheck
    simp [hp]
  refine ⟨?_, ?_, ?_⟩
  · intro hlt
    unfold cycleInitStep
    rw [hsup]
    simp only [hexc, Bool.false_eq_true, if_false, hg, Bool.not_true, hb,
      Bool.not_false, if_true, Nat.add_sub_cancel]
    rw [if_neg (by omega)]
  · intro hge
    unfold cycleInitStep
    rw [hsup]
    simp only [hexc, Bool.false_eq_true, if_false, hg, Bool.not_true, hb,
      Bool.not_false, if_true, Nat.add_sub_cancel]
    rw [if_pos (by omega)]
  · unfold cycleInitStep
    rw [hsup]
    simp [hexc, hg, hb]

/-- A fresh worker that has already failed establishment twice. -/
def initFailWorker : Worker :=
  { initVoterInstance "203.0.113.8" 6 with consecutive_init_failures := 2 }

/-- A fresh worker that has already failed establishment four times. -/
def wFourFailures : Worker :=
  { initVoterInstance "203.0.113.9" 2 with consecutive_init_failures := 4 }

/-- C7 witness: the amended statement at concrete workers — the 3rd failure
backs off 120 s, the 5th hard-pauses with the counter reset, and success
resets the counter. -/
theorem c7_init_failure_escalation_witness :
    cycleInitStep initFailWorker
        (some { global_hourly_limit := false, global_reactivation_time := none })
        0 false =
      ({ initFailWorker with
           consecutive_init_failures := initFailWorker.consecutive_init_failures + 1 },
       .backoff (min (30 * 2 ^ initFailWorker.consecutive_init_failures) 300)) ∧
    cycleInitStep wFourFailures
        (some { global_hourly_limit := false, global_reactivation_time := none })
        0 false =
      ({ wFourFailures with status := "⚠️ Init Failed - Paused", is_paused := true
                            pause_event_set := false, consecutive_init_failures := 0 },
       .hardPaused) ∧
    (cycleInitStep initFailWorker
        (some { global_hourly_limit := false, global_reactivation_time := none })
        0 true).1.consecutive_init_failures = 0 :=
  ⟨(c7_init_failure_escalation initFailWorker
      (some { global_hourly_limit := false, global_reactivation_time := none })
      0 rfl rfl rfl rfl).1 (by decide),
   (c7_init_failure_escalation wFourFailures
      (some { global_hourly_limit := false, global_reactivation_time := none })
      0 rfl rfl rfl rfl).2.1 (by decide),
   (c7_init_failure_escalation initFailWorker
      (some { global_hourly_limit := false, global_reactivation_time := none })
      0 rfl rfl rfl rfl).2.2⟩

/-- C7 counterexample: after its 5th consecutive establishment failure the
worker is hard-paused — but with no external intervention whatsoever its very
next cycle iteration self-unpauses it (the loop-top check at lines 1630-1642
sees zero remaining time) and it re-attempts establishment, landing in another
backoff instead of blocking on the pause gate.  "Does not re-attempt until
externally resumed" is therefore false. -/
theorem c7_hard_pause_self_releases :
    (cycleInitStep wFourFailures
        (some { global_hourly_limit := false, global_reactivation_time := none })
        0 false).2 = .hardPaused ∧
    (cycleInitStep wFourFailures
        (some { global_hourly_limit := false, global_reactivation_time := none })
        0 false).1.is_paused = true ∧
    (cycleInitStep
        (cycleInitStep wFourFailures
          (some { global_hourly_limit := false, global_reactivation_time := none })
          0 false).1
        (some { global_hourly_limit := false, global_reactivation_time := none })
        30 false).2 = .backoff 30 := by
  decide

/-! ### Claim C5 -/

/-- Eligibility for auto-unpause requires the worker to be paused. -/
theorem eligibleUnpause_is_paused (g : Bool) (r : Option Int) (now : Int)
    (w : Worker) (h : eligibleUnpause g r now w = true) : w.is_paused = true := by
  unfold eligibleUnpause at h
  simp only [Bool.and_eq_true] at h
  exact h.2.1.1

/-- `unpauseFirst` rewrites exactly the first entry satisfying `p` and leaves
every other entry untouched. -/
theorem unpauseFirst_decomp (p : Worker → Bool) (l : List (String × Worker))
    (h : ∃ q ∈ l, p q.2 = true) :
    ∃ l1 ip w l2, l = l1 ++ (ip, w) :: l2 ∧
      (∀ q ∈ l1, p q.2 = false) ∧ p w = true ∧
      unpauseFirst p l = l1 ++ (ip, releaseWorker w) :: l2 := by
  induction l with
  | nil => simp at h
  | cons q t ih =>
    obtain ⟨ip0, w0⟩ := q
    by_cases hw : p w0 = true
    · exact ⟨[], ip0, w0, t, rfl, by simp, hw, by simp [unpauseFirst, hw]⟩
    · have hne : p w0 = false := by simpa using hw
      have ht : ∃ q ∈ t, p q.2 = true := by
        rcases h with ⟨q, hq, hpq⟩
        rcases List.mem_cons.mp hq with rfl | hmem
        · exact absurd hpq hw
        · exact ⟨q, hmem, hpq⟩
      obtain ⟨l1, ip, w, l2, he, hall, hpw, hres⟩ := ih ht
      refine ⟨(ip0, w0) :: l1, ip, w, l2, ?_, ?_, hpw, ?_⟩
      · rw [List.cons_append, he]
      · intro q hq
        rcases List.mem_cons.mp hq with rfl | hmem
        · exact hne
        · exact hall q hmem
      · simp only [unpauseFirst, hne, Bool.false_eq_true, if_false, hres,
          List.cons_append]

/-- C5: when at least one worker is eligible on an auto-unpause tick, the tick
releases exactly the first eligible worker (pause cleared, gate set, status
set to resumed-ready); every other entry of the registry, in particular every
other eligible worker, is returned untouched and so stays paused. -/
theorem c5_auto_unpause_releases_exactly_one (s : FleetState) (now : Int)
    (h : ∃ q ∈ s.active_instances,
        eligibleUnpause s.global_hourly_limit s.global_reactivation_time now q.2 = true) :
    ∃ l1 ip w l2,
      s.active_instances = l1 ++ (ip, w) :: l2 ∧
      (∀ q ∈ l1,
        eligibleUnpause s.global_hourly_limit s.global_reactivation_time now q.2 = false) ∧
      eligibleUnpause s.global_hourly_limit s.global_reactivation_time now w = true ∧
      (auto_unpause_tick s now).active_instances =
        l1 ++ (ip, releaseWorker w) :: l2 ∧
      (releaseWorker w).is_paused = false ∧
      (releaseWorker w).pause_event_set = true ∧
      (releaseWorker w).status = "▶️ Resumed - Ready to Vote" ∧
      (∀ q ∈ l1 ++ l2,
        eligibleUnpause s.global_hourly_limit s.global_reactivation_time now q.2 = true →
          q.2.is_paused = true) := by
  obtain ⟨l1, ip, w, l2, he, hall, hpw, hres⟩ := unpauseFirst_decomp _ _ h
  refine ⟨l1, ip, w, l2, he, hall, hpw, hres, rfl, rfl, rfl, ?_⟩
  intro q hq helig
  exact eligibleUnpause_is_paused _ _ _ _ helig

/-- A worker paused with no pending cooldown, as after a cleared global
throttle. -/
def pausedReadyWorker (ip : String) (id : Nat) : Worker :=
  { initVoterInstance ip id with
      is_paused := true
      pause_event_set := false
      status := "⏸️ Paused - Hourly Limit" }

/-- A fleet with two simultaneously eligible paused workers and the global
throttle cleared (the spec's Scenario E). -/
def resumeFleet : FleetState :=
  { emptyFleet with active_instances :=
      [("10.0.0.1", pausedReadyWorker "10.0.0.1" 1),
       ("10.0.0.2", pausedReadyWorker "10.0.0.2" 2)] }

/-- C5 witness: with two eligible workers, one tick releases exactly the
first and the second stays paused. -/
theorem c5_auto_unpause_releases_exactly_one_witness :
    ∃ l1 ip w l2,
      resumeFleet.active_instances = l1 ++ (ip, w) :: l2 ∧
      (∀ q ∈ l1,
        eligibleUnpause resumeFleet.global_hourly_limit
          resumeFleet.global_reactivation_time 0 q.2 = false) ∧
      eligibleUnpause resumeFleet.global_hourly_limit
        resumeFleet.global_reactivation_time 0 w = true ∧
      (auto_unpause_tick resumeFleet 0).active_instances =
        l1 ++ (ip, releaseWorker w) :: l2 ∧
      (releaseWorker w).is_paused = false ∧
      (releaseWorker w).pause_event_set = true ∧
      (releaseWorker w).status = "▶️ Resumed - Ready to Vote" ∧
      (∀ q ∈ l1 ++ l2,
        eligibleUnpause resumeFleet.global_hourly_limit
          resumeFleet.global_reactivation_time 0 q.2 = true →
          q.2.is_paused = true) :=
  c5_auto_unpause_releases_exactly_one resumeFleet 0 (by decide)

/-! ### Claim C3 -/

/-- Keys after a dict assignment are old keys or the assigned key. -/
theorem updateAssoc_keys_subset (l : List (String × Worker)) (k a : String)
    (v : Worker) (h : a ∈ (updateAssoc l k v).map Prod.fst) :
    a ∈ l.map Prod.fst ∨ a = k := by
  induction l with
  | nil =>
    simp [updateAssoc] at h
    exact Or.inr h
  | cons q t ih =>
    obtain ⟨k1, v1⟩ := q
    unfold updateAssoc at h
    by_cases hk : (k1 == k) = true
    · rw [if_pos hk] at h
      simp only [List.map_cons, List.mem_cons] at h
      rcases h with rfl | hmem
      · exact Or.inr rfl
      · exact Or.inl (by simp only [List.map_cons, List.mem_cons]; exact Or.inr hmem)
    · rw [if_neg hk] at h
      simp only [List.map_cons, List.mem_cons] at h
      rcases h with rfl | hmem
      · exact Or.inl (by simp)
      · rcases ih hmem with h1 | h2
        · exact Or.inl (by simp only [List.map_cons, List.mem_cons]; exact Or.inr h1)
        · exact Or.inr h2

/-- A dict assignment keeps the key list duplicate-free. -/
theorem updateAssoc_keys_nodup (l : List (String × Worker)) (k : String)
    (v : Worker) (h : (l.map Prod.fst).Nodup) :
    ((updateAssoc l k v).map Prod.fst).Nodup := by
  induction l with
  | nil => simp [updateAssoc]
  | cons q t ih =>
    obtain ⟨k1, v1⟩ := q
    simp only [List.map_cons, List.nodup_cons] at h
    obtain ⟨hnotin, hnd⟩ := h
    unfold updateAssoc
    by_cases hk : (k1 == k) = true
    · rw [if_pos hk]
      have hkk : k1 = k := by simpa using hk
      subst hkk
      simp only [List.map_cons, List.nodup_cons]
      exact ⟨hnotin, hnd⟩
    · rw [if_neg hk]
      simp only [List.map_cons, List.nodup_cons]
      refine ⟨?_, ih hnd⟩
      intro hmem
      rcases updateAssoc_keys_subset t k k1 v hmem with h1 | h2
      · exact hnotin h1
      · exact hk (by simp [h2])

/-- Set insertion keeps old members. -/
theorem mem_addUsedIp_of_mem (l : List String) (ip a : String) (h : a ∈ l) :
    a ∈ addUsedIp l ip := by
  unfold addUsedIp
  split <;> simp [h]

/-- Set insertion contains the inserted element. -/
theorem self_mem_addUsedIp (l : List String) (ip : String) :
    ip ∈ addUsedIp l ip := by
  unfold addUsedIp
  split
  · next hc => exact List.mem_of_elem_eq_true hc
  · simp

/-- A fresh identity granted by `get_proxy_ip` is never in the exclusion
set. -/
theorem get_proxy_ip_fresh (excluded : List String) (assigned : Option String)
    (ip : String) (h : get_proxy_ip excluded assigned = some ip) :
    ip ∉ excluded := by
  unfold get_proxy_ip at h
  cases assigned with
  | none => simp at h
  | some a =>
    have h' : (if (!(a == "")) = true then
        (if (!excluded.isEmpty && excluded.contains a) = true then none
         else some a) else none) = some ip := h
    by_cases ha : (a == "") = true
    · simp [ha] at h'
    · rw [if_pos (by simp [ha])] at h'
      by_cases hc : (!excluded.isEmpty && excluded.contains a) = true
      · rw [if_pos hc] at h'
        simp at h'
      · rw [if_neg hc] at h'
        have haip : a = ip := by simpa using h'
        subst haip
        intro hmem
        have hcontains : excluded.contains a = true :=
          List.elem_eq_true_of_mem hmem
        have hne : excluded.isEmpty = false := by
          cases hE : excluded.isEmpty
          · rfl
          · rw [List.isEmpty_iff] at hE
            rw [hE] at hmem
            simp at hmem
        exact hc (by rw [hne, hcontains]; rfl)

/-- The identity-uniqueness invariant: no two launched (live) workers share a
proxy IP, every live worker's IP is in `used_ips`, and the registry keys are
duplicate-free. -/
def FleetIdentityInv (s : FleetState) : Prop :=
  (s.launched.map (fun w => w.proxy_ip)).Nodup ∧
  (∀ w ∈ s.launched, w.proxy_ip ∈ s.used_ips) ∧
  ((s.active_instances.map Prod.fst).Nodup)

/-- C3 (amended): fresh launches preserve identity uniqueness —
`launch_new_instance` requests an IP excluded from
`active_instances.keys() | used_ips`, so under the identity invariant no two
live workers ever share an IP after a fresh launch, and the registry keys stay
unique.  (The restore path is the exception; see the counterexample.) -/
theorem c3_launch_new_preserves_unique_identity (s : FleetState)
    (assigned : Option String) (fs : String) (initOk loginReq : Bool)
    (hInv : FleetIdentityInv s) :
    FleetIdentityInv (launch_new_instance s assigned fs initOk loginReq).1 := by
  obtain ⟨hnodup, hsub, hkeys⟩ := hInv
  unfold launch_new_instance
  simp only []
  cases hip : get_proxy_ip (s.active_instances.map Prod.fst ++ s.used_ips) assigned with
  | none => exact ⟨hnodup, hsub, hkeys⟩
  | some ip =>
    have hfresh := get_proxy_ip_fresh _ _ _ hip
    have hnotused : ip ∉ s.used_ips := fun hm =>
      hfresh (List.mem_append.mpr (Or.inr hm))
    by_cases hinit : initOk = true
    · simp only [hinit, if_true]
      cases loginReq <;>
      · simp only [Bool.false_eq_true, Bool.true_eq_false, if_false, if_true]
        refine ⟨?_, ?_, updateAssoc_keys_nodup _ _ _ hkeys⟩
        · rw [List.map_append, List.nodup_append]
          refine ⟨hnodup, by simp, ?_⟩
          intro a ha hb
          simp only [List.map_cons, List.map_nil, List.mem_singleton] at hb
          rw [hb] at ha
          obtain ⟨w1, hw1, hpa⟩ := List.mem_map.mp ha
          have hpip : (initVoterInstance ip (s.active_instances.length + 1)).proxy_ip = ip :=
            rfl
          rw [hpip] at hpa
          exact hnotused (hpa ▸ hsub w1 hw1)
        · intro w1 hw1
          rcases List.mem_append.mp hw1 with hold | hnew
          · exact mem_addUsedIp_of_mem _ _ _ (hsub w1 hold)
          · simp only [List.mem_singleton] at hnew
            subst hnew
            exact self_mem_addUsedIp _ _
    · simp only [Bool.not_eq_true] at hinit
      simp only [hinit, Bool.false_eq_true, if_false]
      exact ⟨hnodup, hsub, hkeys⟩

/-- C3 witness: the amended preservation statement applied to the empty
fleet launching a fresh worker. -/
theorem c3_launch_new_preserves_unique_identity_witness :
    FleetIdentityInv
      (launch_new_instance emptyFleet (some "198.51.100.1") "sessionabc"
        true false).1 :=
  c3_launch_new_preserves_unique_identity emptyFleet (some "198.51.100.1")
    "sessionabc" true false ⟨by decide, by decide, by decide⟩

/-- A saved session recording proxy IP 203.0.113.5 for instance 1. -/
def savedArtifactA : SavedArtifact :=
  { storage_state_exists := true
    info := some { instance_id := 1, proxy_ip := some "203.0.113.5"
                   session_id := some "abcdefghij", last_vote_time := none
                   vote_count := 0, saved_at := 0 } }

/-- A saved session recording the same proxy IP for instance 2. -/
def savedArtifactB : SavedArtifact :=
  { storage_state_exists := true
    info := some { instance_id := 2, proxy_ip := some "203.0.113.5"
                   session_id := some "klmnopqrst", last_vote_time := none
                   vote_count := 0, saved_at := 0 } }

/-- The fleet after restoring both saved sessions. -/
def fleetAfterTwoRestores : FleetState :=
  (launch_instance_from_saved_session
    (launch_instance_from_saved_session emptyFleet 1 savedArtifactA none "f1"
      true true false).1
    2 savedArtifactB none "f2" true true false).1

/-- C3 counterexample: restoring two saved sessions that recorded the same
proxy IP yields two live workers (instances 1 and 2, both launched, both with
running cycles) bound to 203.0.113.5 — `launch_instance_from_saved_session`
reuses the saved IP without checking it against live workers and its
duplicate guard only compares instance ids, so the claimed invariant fails;
the registry key is silently rebound to the second worker while the first
stays live. -/
theorem c3_two_live_workers_share_ip :
    fleetAfterTwoRestores.launched.map (fun w => (w.instance_id, w.proxy_ip)) =
      [(1, "203.0.113.5"), (2, "203.0.113.5")] ∧
    ¬ (fleetAfterTwoRestores.launched.map (fun w => w.proxy_ip)).Nodup ∧
    fleetAfterTwoRestores.active_instances.map
        (fun q => (q.1, q.2.instance_id)) = [("203.0.113.5", 2)] := by
  decide

end CloudVoter
